import Mathlib

set_option maxRecDepth 8192

/-- JSON-like values as produced by json.loads in src/app.py. Fractional JSON
numbers are not exercised by any analysed scenario and are left out of the
model; Python dicts are modelled as insertion-ordered association lists. -/
inductive JVal where
  | jnull
  | jbool (b : Bool)
  | jint (n : Int)
  | jstr (s : String)
  | jarr (elems : List JVal)
  | jobj (fields : List (String × JVal))

mutual

/-- Structural equality on JVal, modelling Python == on parsed JSON values. -/
def beqJVal : JVal → JVal → Bool
  | JVal.jnull, JVal.jnull => true
  | JVal.jbool a, JVal.jbool b => a == b
  | JVal.jint a, JVal.jint b => a == b
  | JVal.jstr a, JVal.jstr b => a == b
  | JVal.jarr xs, JVal.jarr ys => beqJList xs ys
  | JVal.jobj xs, JVal.jobj ys => beqJFields xs ys
  | _, _ => false

/-- Pointwise equality of JSON arrays. -/
def beqJList : List JVal → List JVal → Bool
  | [], [] => true
  | x :: xs, y :: ys => beqJVal x y && beqJList xs ys
  | _, _ => false

/-- Pointwise equality of JSON object field lists. -/
def beqJFields : List (String × JVal) → List (String × JVal) → Bool
  | [], [] => true
  | (k, v) :: xs, (l, w) :: ys => k == l && beqJVal v w && beqJFields xs ys
  | _, _ => false

end

instance : BEq JVal := ⟨beqJVal⟩

/-- Dict lookup: the value stored under a key, if present (Python d[k] probe). -/
def lookupKey : List (String × JVal) → String → Option JVal
  | [], _ => none
  | (k, v) :: rest, key => if k = key then some v else lookupKey rest key

/-- Dict assignment d[key] = v: replaces in place when the key exists
(keeping its position, as Python dicts do), otherwise appends at the end. -/
def setKey : List (String × JVal) → String → JVal → List (String × JVal)
  | [], key, v => [(key, v)]
  | (k, w) :: rest, key, v =>
    if k = key then (k, v) :: rest else (k, w) :: setKey rest key v

/-- JSON / Python whitespace characters. -/
def isWsChar (c : Char) : Bool :=
  c == ' ' || c == '\t' || c == '\n' || c == '\r'

/-- Drop leading whitespace. -/
def skipWs : List Char → List Char
  | [] => []
  | c :: cs => if isWsChar c then skipWs cs else c :: cs

/-- Does the first list occur as a leading segment of the second? -/
def leadsWith : List Char → List Char → Bool
  | [], _ => true
  | _ :: _, [] => false
  | p :: ps, c :: cs => p == c && leadsWith ps cs

/-- Does the first list occur as a contiguous segment of the second? -/
def hasSubChars (pat : List Char) : List Char → Bool
  | [] => leadsWith pat []
  | c :: rest => leadsWith pat (c :: rest) || hasSubChars pat rest

/-- Accumulate the decimal value of a digit run; fails on a non-digit. -/
def digitsToNatAux : List Char → Nat → Option Nat
  | [], acc => some acc
  | c :: cs, acc =>
    if c.toNat ≥ 48 && c.toNat ≤ 57 then
      digitsToNatAux cs (acc * 10 + (c.toNat - 48))
    else none

/-- Parse a leading run of decimal digits, returning its value and the rest. -/
def parseNatChars (cs : List Char) : Option (Nat × List Char) :=
  let digs := cs.takeWhile (fun c => c.toNat ≥ 48 && c.toNat ≤ 57)
  let rest := cs.dropWhile (fun c => c.toNat ≥ 48 && c.toNat ≤ 57)
  match digs with
  | [] => none
  | _ => (digitsToNatAux digs 0).map (fun n => (n, rest))

/-- Decode one JSON string escape (subset: quote, backslash, slash, n, t, r;
the \uXXXX form is not needed by any analysed input and is not modelled). -/
def unescapeChar (c : Char) : Char :=
  if c == 'n' then '\n' else if c == 't' then '\t' else if c == 'r' then '\r' else c

/-- Body of a JSON string after the opening quote: characters up to the
closing quote, applying escapes. -/
def parseStrBody : List Char → List Char → Option (String × List Char)
  | [], _ => none
  | '"' :: rest, acc => some (String.mk acc.reverse, rest)
  | '\\' :: c :: rest, acc => parseStrBody rest (unescapeChar c :: acc)
  | '\\' :: [], _ => none
  | c :: rest, acc => parseStrBody rest (c :: acc)

mutual

/-- Fuel-driven recursive-descent JSON value parser, modelling json.loads. -/
def parseVal : Nat → List Char → Option (JVal × List Char)
  | 0, _ => none
  | Nat.succ f, cs =>
    match skipWs cs with
    | '\x7b' :: rest => parseObjRest f rest
    | '[' :: rest => parseArrRest f rest
    | '"' :: rest =>
      (parseStrBody rest []).map (fun p => (JVal.jstr p.fst, p.snd))
    | 't' :: 'r' :: 'u' :: 'e' :: rest => some (JVal.jbool true, rest)
    | 'f' :: 'a' :: 'l' :: 's' :: 'e' :: rest => some (JVal.jbool false, rest)
    | 'n' :: 'u' :: 'l' :: 'l' :: rest => some (JVal.jnull, rest)
    | '-' :: rest =>
      (parseNatChars rest).map (fun p => (JVal.jint (-(p.fst : Int)), p.snd))
    | cs2 => (parseNatChars cs2).map (fun p => (JVal.jint (p.fst : Int), p.snd))

/-- After an opening brace: either an empty object or its members. -/
def parseObjRest : Nat → List Char → Option (JVal × List Char)
  | 0, _ => none
  | Nat.succ f, cs =>
    match skipWs cs with
    | '\x7d' :: rest => some (JVal.jobj [], rest)
    | cs2 => parseMembers f cs2 []

/-- Comma-separated key/value members of a JSON object. -/
def parseMembers : Nat → List Char → List (String × JVal) → Option (JVal × List Char)
  | 0, _, _ => none
  | Nat.succ f, cs, acc =>
    match skipWs cs with
    | '"' :: rest =>
      match parseStrBody rest [] with
      | none => none
      | some (key, rest2) =>
        match skipWs rest2 with
        | ':' :: rest3 =>
          match parseVal f rest3 with
          | none => none
          | some (v, rest4) =>
            match skipWs rest4 with
            | ',' :: rest5 => parseMembers f rest5 (acc ++ [(key, v)])
            | '\x7d' :: rest5 => some (JVal.jobj (acc ++ [(key, v)]), rest5)
            | _ => none
        | _ => none
    | _ => none

/-- After an opening bracket: either an empty array or its elements. -/
def parseArrRest : Nat → List Char → Option (JVal × List Char)
  | 0, _ => none
  | Nat.succ f, cs =>
    match skipWs cs with
    | ']' :: rest => some (JVal.jarr [], rest)
    | cs2 => parseElems f cs2 []

/-- Comma-separated elements of a JSON array. -/
def parseElems : Nat → List Char → List JVal → Option (JVal × List Char)
  | 0, _, _ => none
  | Nat.succ f, cs, acc =>
    match parseVal f cs with
    | none => none
    | some (v, rest) =>
      match skipWs rest with
      | ',' :: rest2 => parseElems f rest2 (acc ++ [v])
      | ']' :: rest2 => some (JVal.jarr (acc ++ [v]), rest2)
      | _ => none

end

/-- json.loads on a whole document: one value, then only trailing whitespace.
Python raises json.JSONDecodeError on failure; here failure is none. -/
def jsonLoads (s : String) : Option JVal :=
  let cs := s.toList
  match parseVal (cs.length * 4 + 16) cs with
  | some (v, rest) =>
    match skipWs rest with
    | [] => some v
    | _ => none
  | none => none

/-- The Python exceptions that arise in analyze_code_with_ollama.
json.JSONDecodeError, ValueError and KeyError are the types caught by the
inner handler (line 193); the catch-all variant models every other
Exception subclass reaching the outer handler (line 198). -/
inductive PyErr where
  | jsonDecodeError (msg : String)
  | valueError (msg : String)
  | keyError (key : String)
  | typeError (msg : String)
  | exception (msg : String)

/-- A single-quote character, used by Python repr of strings and dict keys. -/
def sQuote : String := String.singleton (Char.ofNat 39)

mutual

/-- Python str/repr of a parsed JSON value, as interpolated by the f-string
in the line-195 st.error call (quote-escaping inside strings is not
modelled; no analysed message needs it). -/
def pyRepr : JVal → String
  | JVal.jnull => "None"
  | JVal.jbool true => "True"
  | JVal.jbool false => "False"
  | JVal.jint n => toString n
  | JVal.jstr s => sQuote ++ s ++ sQuote
  | JVal.jarr xs => "[" ++ pyReprList xs ++ "]"
  | JVal.jobj fs => "\x7b" ++ pyReprFields fs ++ "\x7d"

/-- Comma-separated reprs of array elements. -/
def pyReprList : List JVal → String
  | [] => ""
  | [x] => pyRepr x
  | x :: y :: xs => pyRepr x ++ ", " ++ pyReprList (y :: xs)

/-- Comma-separated reprs of dict entries. -/
def pyReprFields : List (String × JVal) → String
  | [] => ""
  | [(k, v)] => sQuote ++ k ++ sQuote ++ ": " ++ pyRepr v
  | (k, v) :: e :: fs => sQuote ++ k ++ sQuote ++ ": " ++ pyRepr v ++ ", " ++ pyReprFields (e :: fs)

end

/-- Python str() of a caught exception, as interpolated into the st.error
messages (str(KeyError(k)) shows the key quoted). -/
def errText : PyErr → String
  | PyErr.jsonDecodeError m => m
  | PyErr.valueError m => m
  | PyErr.keyError k => sQuote ++ k ++ sQuote
  | PyErr.typeError m => m
  | PyErr.exception m => m

/-- Python int(x) on a string: optional surrounding whitespace, an optional
sign, then at least one digit (digit-group underscores are not modelled;
no analysed input uses them). -/
def pyIntOfString (s : String) : Option Int :=
  let cs := ((s.toList.dropWhile isWsChar).reverse.dropWhile isWsChar).reverse
  match cs with
  | [] => none
  | c :: rest =>
    if c == '-' then
      match rest with
      | [] => none
      | _ => (digitsToNatAux rest 0).map (fun n => -(n : Int))
    else if c == '+' then
      match rest with
      | [] => none
      | _ => (digitsToNatAux rest 0).map (fun n => (n : Int))
    else (digitsToNatAux cs 0).map (fun n => (n : Int))

/-- Python int(x) on a parsed JSON value: ints pass through, bools coerce,
numeric strings parse (ValueError otherwise), anything else is a TypeError. -/
def pyInt : JVal → Except PyErr Int
  | JVal.jint n => Except.ok n
  | JVal.jbool b => Except.ok (if b then 1 else 0)
  | JVal.jstr s =>
    match pyIntOfString s with
    | some n => Except.ok n
    | none => Except.error (PyErr.valueError ("invalid literal for int() with base 10"))
  | JVal.jnull => Except.error (PyErr.typeError ("int() argument must not be NoneType"))
  | JVal.jarr _ => Except.error (PyErr.typeError ("int() argument must not be list"))
  | JVal.jobj _ => Except.error (PyErr.typeError ("int() argument must not be dict"))

/-- Python `needle in hay` for the values analyze_code_with_ollama probes:
key membership for dicts, element membership for lists, substring for
strings, TypeError otherwise. -/
def pyContains (hay : JVal) (needle : String) : Except PyErr Bool :=
  match hay with
  | JVal.jobj fs => Except.ok (lookupKey fs needle).isSome
  | JVal.jarr xs => Except.ok (xs.contains (JVal.jstr needle))
  | JVal.jstr s => Except.ok (hasSubChars needle.toList s.toList)
  | _ => Except.error (PyErr.typeError ("argument of type is not iterable"))

/-- Python hay[needle] with a string subscript. -/
def pyGetItem (v : JVal) (key : String) : Except PyErr JVal :=
  match v with
  | JVal.jobj fs =>
    match lookupKey fs key with
    | some x => Except.ok x
    | none => Except.error (PyErr.keyError key)
  | JVal.jstr _ => Except.error (PyErr.typeError ("string indices must be integers"))
  | JVal.jarr _ => Except.error (PyErr.typeError ("list indices must be integers"))
  | _ => Except.error (PyErr.typeError ("object is not subscriptable"))

/-- Python v[key] = x with a string subscript. -/
def pySetItem (v : JVal) (key : String) (x : JVal) : Except PyErr JVal :=
  match v with
  | JVal.jobj fs => Except.ok (JVal.jobj (setKey fs key x))
  | JVal.jstr _ => Except.error (PyErr.typeError ("str object does not support item assignment"))
  | JVal.jarr _ => Except.error (PyErr.typeError ("list indices must be integers"))
  | _ => Except.error (PyErr.typeError ("object does not support item assignment"))

/-- json.loads applied to a value that must be a string (line 173). -/
def pyJsonLoads (v : JVal) : Except PyErr JVal :=
  match v with
  | JVal.jstr s =>
    match jsonLoads s with
    | some j => Except.ok j
    | none => Except.error (PyErr.jsonDecodeError ("Expecting value"))
  | _ => Except.error (PyErr.typeError ("the JSON object must be str, bytes or bytearray"))

/-- json.loads applied to the curl stdout string (line 169). -/
def strJsonLoads (s : String) : Except PyErr JVal :=
  match jsonLoads s with
  | some j => Except.ok j
  | none => Except.error (PyErr.jsonDecodeError ("Expecting value"))

/-- Key name: the endpoint wrapper field. -/
def kResponse : String := "response"

/-- Key name: the description field. -/
def kDescription : String := "description"

/-- Key name: the pros list. -/
def kPros : String := "pros"

/-- Key name: the cons list. -/
def kCons : String := "cons"

/-- Key name: the ratings mapping. -/
def kRatings : String := "ratings"

/-- Key name: the risk-profile classification object. -/
def kRPC : String := "risk_profile_classification"

/-- Key name: the classification type sub-field. -/
def kType : String := "type"

/-- Key name: the classification justification sub-field. -/
def kJustification : String := "justification"

/-- Metric name: data accuracy. -/
def kDataAccuracy : String := "data_accuracy"

/-- Metric name: model efficiency. -/
def kModelEfficiency : String := "model_efficiency"

/-- Metric name: problem solving. -/
def kProblemSolving : String := "problem_solving"

/-- Metric name: logical structure. -/
def kLogicalStructure : String := "logical_structure"

/-- Metric name: risk profile. -/
def kRiskProfile : String := "risk_profile"

/-- get_score_class (src/app.py lines 18-27): CSS band for a score. -/
def get_score_class (score : Int) : String :=
  if score ≥ 80 then "excellent"
  else if score ≥ 60 then "good"
  else if score ≥ 40 then "average"
  else "poor"

/-- The record returned by get_risk_profile_type. -/
structure RiskProfile where
  type : String
  description : String
  icon : String
  color : String

/-- get_risk_profile_type (src/app.py lines 29-58): trader risk profile
from the risk score, with its fixed label, icon and color. -/
def get_risk_profile_type (risk_score : Int) : RiskProfile :=
  if risk_score ≥ 80 then
    ⟨"Ultra-Conservative", "Extremely risk-averse, prioritizes capital preservation above all else", "🛡️", "blue"⟩
  else if risk_score ≥ 60 then
    ⟨"Conservative", "Prefers low-risk investments with steady returns", "☂️", "green"⟩
  else if risk_score ≥ 40 then
    ⟨"Moderate", "Balances risk and return, accepts some volatility", "⚖️", "orange"⟩
  else
    ⟨"Aggressive", "Seeks high returns and accepts significant risk", "⚡", "red"⟩

/-- The per-metric body of the normalize_scores loop (lines 117-121):
int coercion then clamp to [0,100]; the neutral default 50 on
ValueError/TypeError (the exact exception tuple of line 120). -/
def normScore (v : JVal) : JVal :=
  match pyInt v with
  | Except.ok n => JVal.jint (max 0 (min 100 n))
  | Except.error _ => JVal.jint 50

/-- The normalize_scores loop over all keys present in the ratings dict. -/
def normalizeRatings (rf : List (String × JVal)) : List (String × JVal) :=
  rf.map (fun kv => (kv.fst, normScore kv.snd))

/-- normalize_scores (src/app.py lines 111-123). The payload returned by the
extraction step may be any parsed JSON value, so membership and iteration
follow Python semantics per shape: a dict without a ratings key (and a dict
whose ratings value is an empty list or empty string, over which the loop
body never runs) is returned unchanged; iterating or index-assigning any
other non-dict ratings value raises TypeError (the unreachable corner of a
nonempty all-integer list indexing within bounds is collapsed into the same
TypeError; no analysed input goes there). A non-dict payload raises
TypeError on the membership probe or on the string/list item assignment. -/
def normalize_scores (analysis : JVal) : Except PyErr JVal :=
  match analysis with
  | JVal.jobj fs =>
    match lookupKey fs kRatings with
    | none => Except.ok analysis
    | some (JVal.jobj rf) =>
      Except.ok (JVal.jobj (setKey fs kRatings (JVal.jobj (normalizeRatings rf))))
    | some (JVal.jarr []) => Except.ok analysis
    | some (JVal.jstr ("")) => Except.ok analysis
    | some _ => Except.error (PyErr.typeError ("ratings object is not index-assignable"))
  | JVal.jarr xs =>
    if xs.contains (JVal.jstr kRatings) then
      Except.error (PyErr.typeError ("list indices must be integers"))
    else Except.ok analysis
  | JVal.jstr s =>
    if hasSubChars kRatings.toList s.toList then
      Except.error (PyErr.typeError ("string indices must be integers"))
    else Except.ok analysis
  | _ => Except.error (PyErr.typeError ("argument of type is not iterable"))

/-- The fixed weights dict of calculate_overall_score (lines 127-133), in
insertion order. The source weights 0.25/0.2/0.2/0.2/0.15 are modelled as
exact rationals. -/
def weights : List (String × Rat) :=
  [(kDataAccuracy, 25/100), (kModelEfficiency, 20/100), (kProblemSolving, 20/100),
   (kLogicalStructure, 20/100), (kRiskProfile, 15/100)]

/-- ratings[field] inside the line-135 generator: KeyError when the metric is
absent; after normalization every stored value is an integer, so any other
shape is a TypeError at the multiplication. -/
def ratingValue (ratings : List (String × JVal)) (field : String) : Except PyErr Int :=
  match lookupKey ratings field with
  | some (JVal.jint n) => Except.ok n
  | some _ => Except.error (PyErr.typeError ("unsupported operand type for *"))
  | none => Except.error (PyErr.keyError field)

/-- sum(ratings[field] * weights[field] for field in weights), evaluated
left-to-right so the first problematic field raises. -/
def sumWeighted (ratings : List (String × JVal)) : List (String × Rat) → Except PyErr Rat
  | [] => Except.ok 0
  | (f, w) :: ws =>
    match ratingValue ratings f with
    | Except.error e => Except.error e
    | Except.ok n =>
      match sumWeighted ratings ws with
      | Except.error e => Except.error e
      | Except.ok rest => Except.ok ((n : Rat) * w + rest)

/-- Python round(x) to the nearest integer, ties to even. -/
def roundHalfEven (q : Rat) : Int :=
  let f := ⌊q⌋
  let r := q - (f : Rat)
  if r < 1/2 then f
  else if 1/2 < r then f + 1
  else if f % 2 = 0 then f else f + 1

/-- Python round(x, 1): round to one decimal place, ties to even. -/
def pyRound1 (q : Rat) : Rat := (roundHalfEven (q * 10) : Rat) / 10

/-- calculate_overall_score (src/app.py lines 125-136): the weighted sum of
the five metric ratings, rounded to one decimal place. The source computes
in IEEE binary floating point; the model computes in exact rationals (for
every analysed input the one-decimal rounding gives the same result). -/
def calculate_overall_score (ratings : List (String × JVal)) : Except PyErr Rat :=
  match sumWeighted ratings weights with
  | Except.error e => Except.error e
  | Except.ok s => Except.ok (pyRound1 s)

/-- Outcome of the single curl subprocess invocation (src/app.py line 164):
either subprocess.run raised TimeoutExpired after the 30-second limit, or
the process finished with a return code and captured stdout/stderr. -/
inductive CallOutcome where
  | timeout
  | done (returncode : Int) (stdout : String) (stderr : String)

/-- The per-attempt subprocess timeout in seconds (line 164). -/
def subprocessTimeoutSeconds : Nat := 30

/-- The generation temperature sent with the request (line 156): fixed at
0.3 for the one and only invocation; there is no per-attempt schedule. -/
def requestTemperature : Rat := 3/10

/-- The required top-level fields of line 178, in source order. -/
def requiredFields : List String :=
  [kDescription, kPros, kCons, kRatings, kRPC]

/-- The line 179-181 loop: raise ValueError at the first required field not
contained in the payload (a TypeError from the membership probe of a
non-container payload propagates). -/
def checkRequiredAux (analysis : JVal) : List String → Except PyErr Unit
  | [] => Except.ok ()
  | f :: fs =>
    match pyContains analysis f with
    | Except.ok true => checkRequiredAux analysis fs
    | Except.ok false => Except.error (PyErr.valueError ("Missing field " ++ f ++ " in response"))
    | Except.error e => Except.error e

/-- Lines 172-175: when the endpoint reply contains a response field, the
payload is json.loads of that field's value; otherwise the reply itself. -/
def selectPayload (response : JVal) : Except PyErr JVal :=
  match pyContains response kResponse with
  | Except.error e => Except.error e
  | Except.ok true =>
    match pyGetItem response kResponse with
    | Except.error e => Except.error e
    | Except.ok rv => pyJsonLoads rv
  | Except.ok false => Except.ok response

/-- One of the two line 186-189 conditionals: if key is not in v, assign the
default (appending to a dict; item assignment on any other shape raises
TypeError, and a membership probe on a non-container raises TypeError). -/
def ensureKey (v : JVal) (key : String) (dflt : JVal) : Except PyErr JVal :=
  match pyContains v key with
  | Except.error e => Except.error e
  | Except.ok true => Except.ok v
  | Except.ok false =>
    match v with
    | JVal.jobj fs => Except.ok (JVal.jobj (setKey fs key dflt))
    | _ => Except.error (PyErr.typeError ("object does not support item assignment"))

/-- Lines 185-189: default the classification type to Moderate and the
justification to the fixed placeholder when absent. Python mutates the
nested dict in place; storing the updated sub-object back is equivalent. -/
def fixClassification (analysis : JVal) : Except PyErr JVal :=
  match pyGetItem analysis kRPC with
  | Except.error e => Except.error e
  | Except.ok rpc =>
    match ensureKey rpc kType (JVal.jstr ("Moderate")) with
    | Except.error e => Except.error e
    | Except.ok rpc1 =>
      match ensureKey rpc1 kJustification (JVal.jstr ("No specific justification provided")) with
      | Except.error e => Except.error e
      | Except.ok rpc2 => pySetItem analysis kRPC rpc2

/-- The body of the inner try (lines 171-191): select the payload, check the
required fields, normalize the scores, default the classification
sub-fields, and return the analysis. -/
def innerBody (response : JVal) : Except PyErr JVal :=
  match selectPayload response with
  | Except.error e => Except.error e
  | Except.ok analysis =>
    match checkRequiredAux analysis requiredFields with
    | Except.error e => Except.error e
    | Except.ok _ =>
      match normalize_scores analysis with
      | Except.error e => Except.error e
      | Except.ok analysis2 => fixClassification analysis2

/-- The exception tuple of the inner handler (line 193):
(json.JSONDecodeError, ValueError, KeyError). -/
def isInnerCaught : PyErr → Bool
  | PyErr.jsonDecodeError _ => true
  | PyErr.valueError _ => true
  | PyErr.keyError _ => true
  | _ => false

/-- The two st.error diagnostics of the inner handler (lines 194-195). -/
def innerHandlerMsgs (e : PyErr) (response : JVal) : List String :=
  ["Error parsing response: " ++ errText e, "Raw response: " ++ pyRepr response]

/-- The body of the outer try (lines 144-196): run curl, require return code
zero, parse stdout, then run the inner try with its own handler; any
exception the inner handler does not catch propagates. -/
def analyze_try_body (call : CallOutcome) : Except PyErr (Option JVal × List String) :=
  match call with
  | CallOutcome.timeout => Except.error (PyErr.exception ("subprocess timeout expired"))
  | CallOutcome.done rc out errS =>
    if rc = 0 then
      match strJsonLoads out with
      | Except.error e => Except.error e
      | Except.ok response =>
        match innerBody response with
        | Except.ok a => Except.ok (some a, [])
        | Except.error e =>
          if isInnerCaught e then Except.ok (none, innerHandlerMsgs e response)
          else Except.error e
    else Except.error (PyErr.exception ("Curl command failed: " ++ errS))

/-- analyze_code_with_ollama (src/app.py lines 139-200), given the outcome
of its one subprocess call: the analysis dict on success, otherwise None
(the first component) with the st.error diagnostics emitted along the way
(the second component); the outer except Exception handler (line 198)
catches everything the inner handler did not. -/
def analyze_code_with_ollama (call : CallOutcome) : Option JVal × List String :=
  match analyze_try_body call with
  | Except.ok r => r
  | Except.error e => (none, ["Error communicating with Ollama: " ++ errText e])

/-- analyze_code_with_ollama against an endpoint modelled as a stream of
per-attempt outcomes: the source contains no retry loop, so exactly one
call is made and only the first outcome is ever consumed. -/
def analyze_with_endpoint (endpoint : Nat → CallOutcome) : Option JVal × List String :=
  analyze_code_with_ollama (endpoint 0)

/-- All five required top-level fields are contained in the value. -/
def requiredOk (a : JVal) : Bool :=
  requiredFields.all (fun f =>
    match pyContains a f with
    | Except.ok true => true
    | _ => false)

/-- Inspection helper: the stored rating of one metric inside a payload. -/
def ratingOf (v : JVal) (metric : String) : Option JVal :=
  match v with
  | JVal.jobj fs =>
    match lookupKey fs kRatings with
    | some (JVal.jobj rf) => lookupKey rf metric
    | _ => none
  | _ => none

/-- Modelled from the spec: the minimum-content test of the ResponseExtractor
contract, "contains at minimum the description and ratings fields". -/
def spec_hasMinFields (v : JVal) : Bool :=
  match v with
  | JVal.jobj fs => (lookupKey fs kDescription).isSome && (lookupKey fs kRatings).isSome
  | _ => false

/-- Modelled from the spec: one extraction strategy step, "parses successfully
as the expected structured shape AND contains at minimum the description
and ratings fields". -/
def spec_tryParse (s : String) : Option JVal :=
  match jsonLoads s with
  | some v => if spec_hasMinFields v then some v else none
  | none => none

/-- The structured-data fence opener, three backticks then the format tag. -/
def fenceOpen : List Char :=
  List.replicate 3 (Char.ofNat 96) ++ ['j', 's', 'o', 'n']

/-- The fence closer, three backticks. -/
def fenceClose : List Char := List.replicate 3 (Char.ofNat 96)

/-- The suffix after the first occurrence of a pattern, if any. -/
def afterSub (pat : List Char) : List Char → Option (List Char)
  | [] => if leadsWith pat [] then some [] else none
  | c :: rest =>
    if leadsWith pat (c :: rest) then some ((c :: rest).drop pat.length)
    else afterSub pat rest

/-- The segment before the first occurrence of a pattern, if any. -/
def beforeSub (pat : List Char) : List Char → Option (List Char)
  | [] => if leadsWith pat [] then some [] else none
  | c :: rest =>
    if leadsWith pat (c :: rest) then some []
    else (beforeSub pat rest).map (fun l => c :: l)

/-- Modelled from the spec: extraction strategy 2, "if a fenced block tagged
as structured-data format exists, parse only its interior"; absent from
src/app.py. -/
def spec_fencedInterior (s : String) : Option String :=
  match afterSub fenceOpen s.toList with
  | none => none
  | some suffix => (beforeSub fenceClose suffix).map String.mk

/-- Modelled from the spec: extraction strategy 3, "slicing from the first
opening-brace character to the last closing-brace character"; absent from
src/app.py. -/
def spec_braceSlice (s : String) : Option String :=
  let cs := s.toList
  match cs.findIdx? (fun c => c == Char.ofNat 123) with
  | none => none
  | some i =>
    match cs.reverse.findIdx? (fun c => c == Char.ofNat 125) with
    | none => none
    | some j =>
      let jAbs := cs.length - 1 - j
      if i ≤ jAbs then some (String.mk ((cs.drop i).take (jAbs + 1 - i))) else none

/-- Modelled from the spec: the full ResponseExtractor strategy chain in its
fixed priority order, stopping at the first strategy that parses with the
minimum fields; absent from src/app.py, which parses the raw text directly
and has no fallback. -/
def spec_extract (raw : String) : Option JVal :=
  match spec_tryParse raw with
  | some v => some v
  | none =>
    match (spec_fencedInterior raw).bind spec_tryParse with
    | some v => some v
    | none => (spec_braceSlice raw).bind spec_tryParse

/-- The ratings dict of end-to-end scenario A, with the risk_profile slot
left as a parameter so scenarios B and C can vary it. -/
def ratingsB (v : JVal) : List (String × JVal) :=
  [(kDataAccuracy, JVal.jint 90), (kModelEfficiency, JVal.jint 70),
   (kProblemSolving, JVal.jint 70), (kLogicalStructure, JVal.jint 70),
   (kRiskProfile, v)]

/-- The field list of the scenario payload. -/
def payloadFields (v : JVal) : List (String × JVal) :=
  [(kDescription, JVal.jstr ("ok")), (kRatings, JVal.jobj (ratingsB v)),
   (kPros, JVal.jarr [JVal.jstr ("p1")]), (kCons, JVal.jarr [JVal.jstr ("c1")]),
   (kRPC, JVal.jobj [(kType, JVal.jstr ("Conservative")), (kJustification, JVal.jstr ("j"))])]

/-- The scenario payload with a given risk_profile rating value. -/
def payloadWith (v : JVal) : JVal := JVal.jobj (payloadFields v)

/-- Scenario A payload: the five ratings 90, 70, 70, 70, 80. -/
def payloadA : JVal := payloadWith (JVal.jint 80)

/-- The raw endpoint stdout whose parse is exactly the scenario A payload,
returned bare (without a response wrapper field). -/
def goodStdout : String :=
  "\x7b\"description\": \"ok\", \"ratings\": \x7b\"data_accuracy\": 90, \"model_efficiency\": 70, \"problem_solving\": 70, \"logical_structure\": 70, \"risk_profile\": 80\x7d, \"pros\": [\"p1\"], \"cons\": [\"c1\"], \"risk_profile_classification\": \x7b\"type\": \"Conservative\", \"justification\": \"j\"\x7d\x7d"

/-- A warm-up reply: HTTP 200 body reporting the model is still loading. -/
def warmupReply : CallOutcome :=
  CallOutcome.done 0 ("\x7b\"error\": \"loading model\"\x7d") ("")

/-- An endpoint stream that reports warm-up on the first two attempts and
succeeds from the third on. -/
def warmupTwiceEndpoint : Nat → CallOutcome :=
  fun n => if n ≥ 2 then CallOutcome.done 0 goodStdout ("") else warmupReply

/-- A raw model text that is not valid JSON as a whole (prose around the
object) but contains a complete payload between its braces. -/
def decoyRaw : String :=
  "Here is the analysis: \x7b\"description\": \"ok\", \"ratings\": \x7b\"risk_profile\": 50\x7d\x7d Thanks!"

/-- The ratings dict of the missing-metric scenario: risk_profile absent. -/
def ratingsMissing : List (String × JVal) :=
  [(kDataAccuracy, JVal.jint 90), (kModelEfficiency, JVal.jint 70),
   (kProblemSolving, JVal.jint 70), (kLogicalStructure, JVal.jint 70)]

/-- A payload whose ratings dict lacks the risk_profile metric. -/
def payloadMissing : JVal :=
  JVal.jobj [(kDescription, JVal.jstr ("ok")), (kRatings, JVal.jobj ratingsMissing),
   (kPros, JVal.jarr [JVal.jstr ("p1")]), (kCons, JVal.jarr [JVal.jstr ("c1")]),
   (kRPC, JVal.jobj [(kType, JVal.jstr ("Conservative")), (kJustification, JVal.jstr ("j"))])]

/-- An endpoint stdout that parses to a dict with a description but no pros. -/
def noProsStdout : String := "\x7b\"description\": \"d\"\x7d"

theorem lookup_setKey (fs : List (String × JVal)) (k : String) (v : JVal) (key : String) :
    lookupKey (setKey fs k v) key = if key = k then some v else lookupKey fs key := by
  induction fs with
  | nil =>
    by_cases h : key = k
    · subst h; simp [setKey, lookupKey]
    · simp [setKey, lookupKey, h, Ne.symm h]
  | cons hd tl ih =>
    obtain ⟨k1, w⟩ := hd
    by_cases h1 : k1 = k
    · subst h1
      by_cases h2 : key = k1
      · subst h2; simp [setKey, lookupKey]
      · simp [setKey, lookupKey, h2, Ne.symm h2]
    · by_cases h2 : key = k
      · subst h2
        simp [setKey, lookupKey, h1, ih]
      · simp [setKey, lookupKey, h1, h2, ih]

theorem lookup_normalizeRatings (rf : List (String × JVal)) (key : String) :
    lookupKey (normalizeRatings rf) key = (lookupKey rf key).map normScore := by
  induction rf with
  | nil => simp [normalizeRatings, lookupKey]
  | cons hd tl ih =>
    obtain ⟨k1, w⟩ := hd
    by_cases h : k1 = key
    · simp [normalizeRatings, lookupKey, h]
    · simp only [normalizeRatings, lookupKey, List.map_cons, if_neg h]
      simpa [normalizeRatings] using ih

theorem normScore_bounded (v : JVal) :
    ∃ m : Int, normScore v = JVal.jint m ∧ 0 ≤ m ∧ m ≤ 100 := by
  cases h : pyInt v with
  | ok n =>
    exact ⟨max 0 (min 100 n), by simp [normScore, h], by omega, by omega⟩
  | error e =>
    exact ⟨50, by simp [normScore, h], by omega, by omega⟩

theorem checkRequiredAux_ok_mem (fs : List String) (a : JVal)
    (h : checkRequiredAux a fs = Except.ok ()) :
    ∀ f ∈ fs, pyContains a f = Except.ok true := by
  induction fs with
  | nil => intro f hf; cases hf
  | cons hd tl ih =>
    intro f hf
    revert h
    unfold checkRequiredAux
    cases hc : pyContains a hd with
    | ok b =>
      cases b with
      | true =>
        intro h
        rcases List.mem_cons.mp hf with h1 | h1
        · exact h1 ▸ hc
        · exact ih h f h1
      | false => intro h; cases h
    | error e => intro h; cases h

theorem sumWeighted_ok_mem (ws : List (String × Rat)) (r : List (String × JVal)) (q : Rat)
    (h : sumWeighted r ws = Except.ok q) :
    ∀ p ∈ ws, ∃ n : Int, ratingValue r p.fst = Except.ok n := by
  induction ws generalizing q with
  | nil => intro p hp; cases hp
  | cons hd tl ih =>
    obtain ⟨f, w⟩ := hd
    intro p hp
    revert h
    unfold sumWeighted
    cases hv : ratingValue r f with
    | ok n =>
      cases hs : sumWeighted r tl with
      | ok rest =>
        intro h
        rcases List.mem_cons.mp hp with h1 | h1
        · exact ⟨n, h1 ▸ hv⟩
        · exact ih rest hs p h1
      | error e => intro h; cases h
    | error e => intro h; cases h

theorem normalize_ok_jobj (fs : List (String × JVal)) (b : JVal)
    (h : normalize_scores (JVal.jobj fs) = Except.ok b) :
    ∃ fs2, b = JVal.jobj fs2 ∧
      ∀ key, (lookupKey fs key).isSome = true → (lookupKey fs2 key).isSome = true := by
  unfold normalize_scores at h
  split at h
  · rename_i fsb heq
    injection heq with heqf
    subst heqf
    split at h
    · refine ⟨fs, ?_, fun key hk => hk⟩
      injection h with h2
      exact h2.symm
    · rename_i rf heq2
      refine ⟨setKey fs kRatings (JVal.jobj (normalizeRatings rf)), ?_, ?_⟩
      · injection h with h2
        exact h2.symm
      · intro key hk
        rw [lookup_setKey]
        split
        · simp
        · exact hk
    · refine ⟨fs, ?_, fun key hk => hk⟩
      injection h with h2
      exact h2.symm
    · refine ⟨fs, ?_, fun key hk => hk⟩
      injection h with h2
      exact h2.symm
    · exact Except.noConfusion h
  · rename_i xs heq
    exact JVal.noConfusion heq
  · rename_i s heq
    exact JVal.noConfusion heq
  · rename_i hno1 hno2 hno3
    exact (hno1 fs rfl).elim

theorem fixClassification_ok_jobj (fs : List (String × JVal)) (a : JVal)
    (h : fixClassification (JVal.jobj fs) = Except.ok a) :
    ∃ fs3, a = JVal.jobj fs3 ∧
      ∀ key, (lookupKey fs key).isSome = true → (lookupKey fs3 key).isSome = true := by
  unfold fixClassification at h
  split at h
  · exact Except.noConfusion h
  · rename_i rpc heq
    split at h
    · exact Except.noConfusion h
    · rename_i rpc1 heq1
      split at h
      · exact Except.noConfusion h
      · rename_i rpc2 heq2
        simp only [pySetItem] at h
        refine ⟨setKey fs kRPC rpc2, ?_, ?_⟩
        · injection h with h2
          exact h2.symm
        · intro key hk
          rw [lookup_setKey]
          split
          · simp
          · exact hk

theorem requiredOk_of_jobj (fs : List (String × JVal))
    (h : ∀ f ∈ requiredFields, (lookupKey fs f).isSome = true) :
    requiredOk (JVal.jobj fs) = true := by
  simp only [requiredOk, List.all_eq_true]
  intro f hf
  simp only [pyContains]
  rw [h f hf]

theorem innerBody_payload_jobj (analysis b : JVal)
    (hchk : checkRequiredAux analysis requiredFields = Except.ok ())
    (hnorm : normalize_scores analysis = Except.ok b) :
    ∃ fs, analysis = JVal.jobj fs := by
  have hmem := checkRequiredAux_ok_mem requiredFields analysis hchk
  cases analysis with
  | jobj fs => exact ⟨fs, rfl⟩
  | jstr s =>
    have hr := hmem kRatings (by simp [requiredFields])
    simp only [pyContains] at hr
    injection hr with hr2
    simp only [String.toList] at hr2
    simp [normalize_scores, String.toList, hr2] at hnorm
  | jarr xs =>
    have hr := hmem kRatings (by simp [requiredFields])
    simp only [pyContains] at hr
    injection hr with hr2
    simp [normalize_scores, hr2] at hnorm
  | jnull =>
    have hr := hmem kDescription (by simp [requiredFields])
    simp only [pyContains] at hr
    exact Except.noConfusion hr
  | jbool b2 =>
    have hr := hmem kDescription (by simp [requiredFields])
    simp only [pyContains] at hr
    exact Except.noConfusion hr
  | jint n =>
    have hr := hmem kDescription (by simp [requiredFields])
    simp only [pyContains] at hr
    exact Except.noConfusion hr

theorem innerBody_ok_requiredOk (response a : JVal)
    (h : innerBody response = Except.ok a) : requiredOk a = true := by
  unfold innerBody at h
  split at h
  · exact Except.noConfusion h
  · rename_i analysis hsel
    split at h
    · exact Except.noConfusion h
    · rename_i u hchk
      cases u
      split at h
      · exact Except.noConfusion h
      · rename_i b hnorm
        have hmem := checkRequiredAux_ok_mem requiredFields analysis hchk
        obtain ⟨fs, rfl⟩ := innerBody_payload_jobj analysis b hchk hnorm
        obtain ⟨fs2, hb, hpres⟩ := normalize_ok_jobj fs b hnorm
        subst hb
        obtain ⟨fs3, ha, hpres2⟩ := fixClassification_ok_jobj fs2 a h
        subst ha
        apply requiredOk_of_jobj
        intro f hf
        have hc := hmem f hf
        simp only [pyContains] at hc
        injection hc with hc2
        exact hpres2 f (hpres f hc2)

theorem analyze_shape (call : CallOutcome) :
    (∃ a, analyze_code_with_ollama call = (some a, ([] : List String)) ∧
       ∃ response, innerBody response = Except.ok a) ∨
    (∃ msgs, analyze_code_with_ollama call = (none, msgs) ∧ msgs ≠ []) := by
  cases call with
  | timeout =>
    right
    exact ⟨_, rfl, by simp⟩
  | done rc out errS =>
    by_cases hrc : rc = 0
    · subst hrc
      cases hs : strJsonLoads out with
      | error e =>
        right
        refine ⟨["Error communicating with Ollama: " ++ errText e], ?_, by simp⟩
        simp [analyze_code_with_ollama, analyze_try_body, hs]
      | ok resp =>
        cases hib : innerBody resp with
        | ok a =>
          left
          refine ⟨a, ?_, resp, hib⟩
          simp [analyze_code_with_ollama, analyze_try_body, hs, hib]
        | error e =>
          by_cases hc : isInnerCaught e = true
          · right
            refine ⟨innerHandlerMsgs e resp, ?_, by simp [innerHandlerMsgs]⟩
            simp [analyze_code_with_ollama, analyze_try_body, hs, hib, hc]
          · right
            refine ⟨["Error communicating with Ollama: " ++ errText e], ?_, by simp⟩
            simp [analyze_code_with_ollama, analyze_try_body, hs, hib, hc]
    · right
      refine ⟨["Error communicating with Ollama: " ++ ("Curl command failed: " ++ errS)], ?_, by simp⟩
      simp [analyze_code_with_ollama, analyze_try_body, hrc, errText]

theorem normalize_payloadWith (v : JVal) :
    normalize_scores (payloadWith v) = Except.ok (payloadWith (normScore v)) := rfl

theorem normScore_jint (n : Int) :
    normScore (JVal.jint n) = JVal.jint (max 0 (min 100 n)) := rfl

/-- Claim C3: for every rating value that is an integer outside [0,100] or a
non-numeric input, normalize_scores produces a value within [0,100]; an
integer 150 in a rating field is clamped to 100 and a non-numeric value
such as n/a is defaulted to 50. -/
theorem claim_c3_thm (n : Int) (s : String) (_hn : n < 0 ∨ 100 < n)
    (hs : pyIntOfString s = none) :
    (∃ m : Int, normalize_scores (payloadWith (JVal.jint n)) =
        Except.ok (payloadWith (JVal.jint m)) ∧ 0 ≤ m ∧ m ≤ 100) ∧
    normalize_scores (payloadWith (JVal.jstr s)) = Except.ok (payloadWith (JVal.jint 50)) ∧
    normalize_scores (payloadWith (JVal.jint 150)) = Except.ok (payloadWith (JVal.jint 100)) ∧
    normalize_scores (payloadWith (JVal.jstr ("n/a"))) = Except.ok (payloadWith (JVal.jint 50)) := by
  refine ⟨⟨max 0 (min 100 n), ?_, by omega, by omega⟩, ?_, rfl, rfl⟩
  · rw [normalize_payloadWith, normScore_jint]
  · rw [normalize_payloadWith]
    have h50 : normScore (JVal.jstr s) = JVal.jint 50 := by
      simp [normScore, pyInt, hs]
    rw [h50]

theorem claim_c3_witness :
    (∃ m : Int, normalize_scores (payloadWith (JVal.jint 150)) =
        Except.ok (payloadWith (JVal.jint m)) ∧ 0 ≤ m ∧ m ≤ 100) ∧
    normalize_scores (payloadWith (JVal.jstr ("n/a"))) = Except.ok (payloadWith (JVal.jint 50)) ∧
    normalize_scores (payloadWith (JVal.jint 150)) = Except.ok (payloadWith (JVal.jint 100)) ∧
    normalize_scores (payloadWith (JVal.jstr ("n/a"))) = Except.ok (payloadWith (JVal.jint 50)) :=
  claim_c3_thm 150 ("n/a") (Or.inr (by norm_num)) rfl

/-- Claim C4's counterexample: an integer rating of 150 is clamped to 100 by
normalize_scores, not replaced by 50 as the claim states. -/
theorem claim_c4_counterexample :
    normalize_scores (payloadWith (JVal.jint 150)) = Except.ok (payloadWith (JVal.jint 100)) ∧
    ratingOf (payloadWith (JVal.jint 100)) kRiskProfile = some (JVal.jint 100) ∧
    JVal.jint 100 ≠ JVal.jint 50 := by
  refine ⟨rfl, rfl, ?_⟩
  intro h
  injection h with h2
  omega

/-- A rating value on which Python int() raises ValueError or TypeError. -/
def pyIntFails (v : JVal) : Bool :=
  match pyInt v with
  | Except.ok _ => false
  | Except.error _ => true

/-- Claim C4 as amended: a rating value that coerces to an integer but lies
outside [0,100] is clamped to the nearest bound (150 becomes 100, a
negative value becomes 0); 50 is substituted only when the integer
coercion itself fails. -/
theorem claim_c4_thm (n : Int) (v : JVal) :
    (100 < n → normalize_scores (payloadWith (JVal.jint n)) =
        Except.ok (payloadWith (JVal.jint 100))) ∧
    (n < 0 → normalize_scores (payloadWith (JVal.jint n)) =
        Except.ok (payloadWith (JVal.jint 0))) ∧
    (pyIntFails v = true → normalize_scores (payloadWith v) =
        Except.ok (payloadWith (JVal.jint 50))) := by
  refine ⟨?_, ?_, ?_⟩
  · intro h
    rw [normalize_payloadWith, normScore_jint]
    have : max 0 (min 100 n) = 100 := by omega
    rw [this]
  · intro h
    rw [normalize_payloadWith, normScore_jint]
    have : max 0 (min 100 n) = 0 := by omega
    rw [this]
  · intro h
    rw [normalize_payloadWith]
    revert h
    unfold pyIntFails
    cases he : pyInt v with
    | ok m => intro h; cases h
    | error e =>
      intro h
      have h50 : normScore v = JVal.jint 50 := by
        simp [normScore, he]
      rw [h50]

theorem claim_c4_witness :
    normalize_scores (payloadWith (JVal.jint 150)) = Except.ok (payloadWith (JVal.jint 100)) ∧
    normalize_scores (payloadWith (JVal.jint (-7))) = Except.ok (payloadWith (JVal.jint 0)) ∧
    normalize_scores (payloadWith (JVal.jstr ("n/a"))) = Except.ok (payloadWith (JVal.jint 50)) :=
  ⟨(claim_c4_thm 150 JVal.jnull).1 (by norm_num),
   (claim_c4_thm (-7) JVal.jnull).2.1 (by norm_num),
   (claim_c4_thm 0 (JVal.jstr ("n/a"))).2.2 rfl⟩

/-- Claim C5's counterexample: a payload whose ratings dict lacks the
risk_profile metric passes through normalize_scores with the metric still
absent, and the overall-score computation then fails with a KeyError
instead of succeeding. -/
theorem claim_c5_counterexample :
    normalize_scores payloadMissing = Except.ok payloadMissing ∧
    ratingOf payloadMissing kRiskProfile = none ∧
    calculate_overall_score (normalizeRatings ratingsMissing) =
      Except.error (PyErr.keyError kRiskProfile) := by
  exact ⟨rfl, rfl, rfl⟩

/-- Claim C5 as amended: validation repairs only the metric values present in
the ratings mapping, each into [0,100]; a metric name absent from the
mapping stays absent, and the overall-score computation then fails instead
of succeeding. -/
theorem claim_c5_thm (rf : List (String × JVal)) :
    (∀ m v, lookupKey rf m = some v →
      ∃ k : Int, lookupKey (normalizeRatings rf) m = some (JVal.jint k) ∧ 0 ≤ k ∧ k ≤ 100) ∧
    (lookupKey rf kRiskProfile = none →
      lookupKey (normalizeRatings rf) kRiskProfile = none ∧
      ∃ e, calculate_overall_score (normalizeRatings rf) = Except.error e) := by
  constructor
  · intro m v hm
    obtain ⟨k, hk, hk0, hk100⟩ := normScore_bounded v
    refine ⟨k, ?_, hk0, hk100⟩
    rw [lookup_normalizeRatings, hm]
    simp [hk]
  · intro hmiss
    have hnl : lookupKey (normalizeRatings rf) kRiskProfile = none := by
      rw [lookup_normalizeRatings, hmiss]
      rfl
    refine ⟨hnl, ?_⟩
    cases hc : calculate_overall_score (normalizeRatings rf) with
    | error e => exact ⟨e, rfl⟩
    | ok q =>
      exfalso
      revert hc
      unfold calculate_overall_score
      cases hsw : sumWeighted (normalizeRatings rf) weights with
      | error e => intro hc; cases hc
      | ok s =>
        intro hc
        have hmem := sumWeighted_ok_mem weights (normalizeRatings rf) s hsw
          (kRiskProfile, 15/100) (by simp [weights])
        obtain ⟨num, hnum⟩ := hmem
        unfold ratingValue at hnum
        rw [hnl] at hnum
        cases hnum

theorem claim_c5_witness :
    (∃ k : Int, lookupKey (normalizeRatings ratingsMissing) kDataAccuracy =
        some (JVal.jint k) ∧ 0 ≤ k ∧ k ≤ 100) ∧
    lookupKey (normalizeRatings ratingsMissing) kRiskProfile = none ∧
    ∃ e, calculate_overall_score (normalizeRatings ratingsMissing) = Except.error e :=
  ⟨(claim_c5_thm ratingsMissing).1 kDataAccuracy (JVal.jint 90) rfl,
   (claim_c5_thm ratingsMissing).2 rfl⟩

/-- The five-metric ratings dict passed to calculate_overall_score. -/
def ratingsOf (da me ps ls rp : Int) : List (String × JVal) :=
  [(kDataAccuracy, JVal.jint da), (kModelEfficiency, JVal.jint me),
   (kProblemSolving, JVal.jint ps), (kLogicalStructure, JVal.jint ls),
   (kRiskProfile, JVal.jint rp)]

/-- Claim C6: the overall score is the weighted sum of the five ratings with
weights 0.25/0.20/0.20/0.20/0.15, rounded to one decimal place; for the
ratings (90, 70, 70, 70, 80) it is exactly 76.5. -/
theorem claim_c6_thm (da me ps ls rp : Int) :
    calculate_overall_score (ratingsOf da me ps ls rp) =
      Except.ok (pyRound1 ((da : Rat) * (25/100) + ((me : Rat) * (20/100) +
        ((ps : Rat) * (20/100) + ((ls : Rat) * (20/100) + ((rp : Rat) * (15/100) + 0)))))) ∧
    calculate_overall_score (ratingsOf 90 70 70 70 80) = Except.ok (153/2) := by
  constructor
  · rfl
  · have h1 : calculate_overall_score (ratingsOf 90 70 70 70 80) =
        Except.ok (pyRound1 ((90 : Rat) * (25/100) + ((70 : Rat) * (20/100) +
          ((70 : Rat) * (20/100) + ((70 : Rat) * (20/100) + ((80 : Rat) * (15/100) + 0)))))) := rfl
    rw [h1]
    have h2 : (90 : Rat) * (25/100) + ((70 : Rat) * (20/100) +
        ((70 : Rat) * (20/100) + ((70 : Rat) * (20/100) + ((80 : Rat) * (15/100) + 0)))) =
        153/2 := by norm_num
    rw [h2]
    have h3 : pyRound1 (153/2) = 153/2 := by norm_num [pyRound1, roundHalfEven]
    rw [h3]

/-- Claim C8: get_score_class maps a score to excellent when at least 80, good
when in [60,80), average when in [40,60), poor below 40; and
get_risk_profile_type applies the same 80/60/40 thresholds to the risk
score, yielding Ultra-Conservative, Conservative, Moderate and Aggressive
respectively, each with its fixed descriptive label. -/
theorem claim_c8_thm (s r : Int) :
    (80 ≤ s → get_score_class s = "excellent") ∧
    (60 ≤ s → s < 80 → get_score_class s = "good") ∧
    (40 ≤ s → s < 60 → get_score_class s = "average") ∧
    (s < 40 → get_score_class s = "poor") ∧
    (80 ≤ r → get_risk_profile_type r =
      ⟨"Ultra-Conservative", "Extremely risk-averse, prioritizes capital preservation above all else", "🛡️", "blue"⟩) ∧
    (60 ≤ r → r < 80 → get_risk_profile_type r =
      ⟨"Conservative", "Prefers low-risk investments with steady returns", "☂️", "green"⟩) ∧
    (40 ≤ r → r < 60 → get_risk_profile_type r =
      ⟨"Moderate", "Balances risk and return, accepts some volatility", "⚖️", "orange"⟩) ∧
    (r < 40 → get_risk_profile_type r =
      ⟨"Aggressive", "Seeks high returns and accepts significant risk", "⚡", "red"⟩) := by
  refine ⟨fun h1 => ?_, fun h1 h2 => ?_, fun h1 h2 => ?_, fun h1 => ?_,
          fun h1 => ?_, fun h1 h2 => ?_, fun h1 h2 => ?_, fun h1 => ?_⟩
  · unfold get_score_class
    rw [if_pos (by omega)]
  · unfold get_score_class
    rw [if_neg (by omega), if_pos (by omega)]
  · unfold get_score_class
    rw [if_neg (by omega), if_neg (by omega), if_pos (by omega)]
  · unfold get_score_class
    rw [if_neg (by omega), if_neg (by omega), if_neg (by omega)]
  · unfold get_risk_profile_type
    rw [if_pos (by omega)]
  · unfold get_risk_profile_type
    rw [if_neg (by omega), if_pos (by omega)]
  · unfold get_risk_profile_type
    rw [if_neg (by omega), if_neg (by omega), if_pos (by omega)]
  · unfold get_risk_profile_type
    rw [if_neg (by omega), if_neg (by omega), if_neg (by omega)]

theorem claim_c8_witness :
    get_score_class 85 = "excellent" ∧ get_score_class 65 = "good" ∧
    get_score_class 45 = "average" ∧ get_score_class 25 = "poor" ∧
    get_risk_profile_type 85 =
      ⟨"Ultra-Conservative", "Extremely risk-averse, prioritizes capital preservation above all else", "🛡️", "blue"⟩ ∧
    get_risk_profile_type 65 =
      ⟨"Conservative", "Prefers low-risk investments with steady returns", "☂️", "green"⟩ ∧
    get_risk_profile_type 45 =
      ⟨"Moderate", "Balances risk and return, accepts some volatility", "⚖️", "orange"⟩ ∧
    get_risk_profile_type 25 =
      ⟨"Aggressive", "Seeks high returns and accepts significant risk", "⚡", "red"⟩ :=
  ⟨(claim_c8_thm 85 85).1 (by norm_num),
   (claim_c8_thm 65 65).2.1 (by norm_num) (by norm_num),
   (claim_c8_thm 45 45).2.2.1 (by norm_num) (by norm_num),
   (claim_c8_thm 25 25).2.2.2.1 (by norm_num),
   (claim_c8_thm 85 85).2.2.2.2.1 (by norm_num),
   (claim_c8_thm 65 65).2.2.2.2.2.1 (by norm_num) (by norm_num),
   (claim_c8_thm 45 45).2.2.2.2.2.2.1 (by norm_num) (by norm_num),
   (claim_c8_thm 25 25).2.2.2.2.2.2.2 (by norm_num)⟩

/-- Claim C9: when the endpoint reply is an object with a response field, the
payload submitted to validation is the parse of that field's string value;
when the reply object has no response field, the reply object itself is
the payload, so a bare result object is accepted. -/
theorem claim_c9_thm (fields : List (String × JVal)) (raw : String) (v : JVal) :
    (lookupKey fields kResponse = some (JVal.jstr raw) → jsonLoads raw = some v →
      selectPayload (JVal.jobj fields) = Except.ok v) ∧
    (lookupKey fields kResponse = none →
      selectPayload (JVal.jobj fields) = Except.ok (JVal.jobj fields)) := by
  constructor
  · intro h1 h2
    simp [selectPayload, pyContains, pyGetItem, pyJsonLoads, h1, h2]
  · intro h1
    simp [selectPayload, pyContains, h1]

theorem claim_c9_witness :
    selectPayload (JVal.jobj [(kResponse, JVal.jstr ("5"))]) = Except.ok (JVal.jint 5) ∧
    selectPayload (JVal.jobj [(kDescription, JVal.jstr ("d"))]) =
      Except.ok (JVal.jobj [(kDescription, JVal.jstr ("d"))]) :=
  ⟨(claim_c9_thm [(kResponse, JVal.jstr ("5"))] ("5") (JVal.jint 5)).1 rfl rfl,
   (claim_c9_thm [(kDescription, JVal.jstr ("d"))] ("") JVal.jnull).2 rfl⟩

/-- Claim C10: normalize_scores changes at most the values inside the ratings
mapping; every top-level field other than ratings is returned unchanged,
and a payload with no ratings key at all is returned entirely unchanged. -/
theorem claim_c10_thm (fields fields2 : List (String × JVal)) (key : String) :
    (lookupKey fields kRatings = none →
      normalize_scores (JVal.jobj fields) = Except.ok (JVal.jobj fields)) ∧
    (normalize_scores (JVal.jobj fields) = Except.ok (JVal.jobj fields2) → key ≠ kRatings →
      lookupKey fields2 key = lookupKey fields key) := by
  constructor
  · intro h
    simp [normalize_scores, h]
  · intro h hk
    unfold normalize_scores at h
    split at h
    · rename_i fsb heq
      injection heq with heqf
      subst heqf
      split at h
      · injection h with h2
        injection h2 with h3
        rw [← h3]
      · rename_i rf heq2
        injection h with h2
        injection h2 with h3
        rw [← h3, lookup_setKey, if_neg hk]
      · injection h with h2
        injection h2 with h3
        rw [← h3]
      · injection h with h2
        injection h2 with h3
        rw [← h3]
      · exact Except.noConfusion h
    · rename_i xs heq
      exact JVal.noConfusion heq
    · rename_i s heq
      exact JVal.noConfusion heq
    · rename_i hno1 hno2 hno3
      exact (hno1 fields rfl).elim

theorem claim_c10_witness :
    normalize_scores (JVal.jobj [(kDescription, JVal.jstr ("d"))]) =
      Except.ok (JVal.jobj [(kDescription, JVal.jstr ("d"))]) ∧
    lookupKey (payloadFields (JVal.jint 100)) kDescription =
      lookupKey (payloadFields (JVal.jint 150)) kDescription :=
  ⟨(claim_c10_thm [(kDescription, JVal.jstr ("d"))] [] kDescription).1 rfl,
   (claim_c10_thm (payloadFields (JVal.jint 150)) (payloadFields (JVal.jint 100))
     kDescription).2 rfl (by decide)⟩

/-- Claim C1's counterexample: a raw model text that strategy 1 (direct
parse) rejects but the spec's strategy 3 (brace slice) extracts with the
required description and ratings fields present; the code nevertheless
fails on it with a JSON decode error, because the fallback strategies do
not exist in src/app.py. -/
theorem claim_c1_counterexample :
    jsonLoads decoyRaw = none ∧
    (spec_extract decoyRaw).isSome = true ∧
    innerBody (JVal.jobj [(kResponse, JVal.jstr decoyRaw)]) =
      Except.error (PyErr.jsonDecodeError ("Expecting value")) :=
  ⟨rfl, rfl, rfl⟩

/-- Claim C1 as amended: response extraction applies only strategy 1 — the
raw text is parsed directly as JSON — so whenever that direct parse fails,
the analysis reports a parse failure without attempting a fenced-block or
brace-slice fallback, whatever JSON object the raw text may contain. -/
theorem claim_c1_thm (stdout raw : String) (fields : List (String × JVal))
    (h1 : jsonLoads stdout = some (JVal.jobj fields))
    (h2 : lookupKey fields kResponse = some (JVal.jstr raw))
    (h3 : jsonLoads raw = none) :
    analyze_code_with_ollama (CallOutcome.done 0 stdout ("")) =
      (none, ["Error parsing response: Expecting value",
              "Raw response: " ++ pyRepr (JVal.jobj fields)]) := by
  have hresp : strJsonLoads stdout = Except.ok (JVal.jobj fields) := by
    simp [strJsonLoads, h1]
  have hsel : selectPayload (JVal.jobj fields) =
      Except.error (PyErr.jsonDecodeError ("Expecting value")) := by
    simp [selectPayload, pyContains, pyGetItem, pyJsonLoads, h2, h3]
  have hib : innerBody (JVal.jobj fields) =
      Except.error (PyErr.jsonDecodeError ("Expecting value")) := by
    simp [innerBody, hsel]
  simp [analyze_code_with_ollama, analyze_try_body, hresp, hib, isInnerCaught,
        innerHandlerMsgs, errText]

theorem claim_c1_witness :
    analyze_code_with_ollama (CallOutcome.done 0 ("\x7b\"response\": \"oops\"\x7d") ("")) =
      (none, ["Error parsing response: Expecting value",
              "Raw response: " ++ pyRepr (JVal.jobj [(kResponse, JVal.jstr ("oops"))])]) :=
  claim_c1_thm ("\x7b\"response\": \"oops\"\x7d") ("oops")
    [(kResponse, JVal.jstr ("oops"))] rfl rfl rfl

/-- Claim C2's counterexample: against an endpoint that reports warming up on
the first two attempts and returns a complete analysis from the third on,
the function returns None — only the first reply is ever consumed, there
is no retry — even though the third reply parses to a full result. -/
theorem claim_c2_counterexample :
    (analyze_with_endpoint warmupTwiceEndpoint).fst = none ∧
    (analyze_code_with_ollama (warmupTwiceEndpoint 2)).fst = some payloadA :=
  ⟨rfl, rfl⟩

/-- Claim C2 as amended: the invocation makes a single endpoint call per
analysis with the fixed temperature 0.3 and a 30-second subprocess
timeout; a warm-up reply on that first and only call yields a failure
value immediately instead of a retry. -/
theorem claim_c2_thm (endpoint : Nat → CallOutcome) (h : endpoint 0 = warmupReply) :
    (analyze_with_endpoint endpoint).fst = none ∧
    analyze_with_endpoint endpoint = analyze_code_with_ollama (endpoint 0) ∧
    requestTemperature = 3/10 ∧
    subprocessTimeoutSeconds = 30 := by
  refine ⟨?_, rfl, rfl, rfl⟩
  unfold analyze_with_endpoint
  rw [h]
  rfl

theorem claim_c2_witness :
    (analyze_with_endpoint (fun _ => warmupReply)).fst = none ∧
    analyze_with_endpoint (fun _ => warmupReply) =
      analyze_code_with_ollama ((fun _ => warmupReply) 0) ∧
    requestTemperature = 3/10 ∧
    subprocessTimeoutSeconds = 30 :=
  claim_c2_thm (fun _ => warmupReply) rfl

/-- Claim C7: for every outcome of the endpoint call the analysis operation
returns a representable value — either a payload that passed the
required-field check, or None accompanied by at least one diagnostic
message — and never an unhandled fault; in particular a parsed payload
missing a required field yields None with a message naming the missing
field, identifying the failure as an incomplete response. -/
theorem claim_c7_thm (call : CallOutcome) (stdout : String)
    (fields : List (String × JVal)) (a : JVal) :
    ((analyze_code_with_ollama call).fst = some a → requiredOk a = true) ∧
    ((analyze_code_with_ollama call).fst = none → (analyze_code_with_ollama call).snd ≠ []) ∧
    (jsonLoads stdout = some (JVal.jobj fields) →
     lookupKey fields kResponse = none →
     lookupKey fields kDescription ≠ none →
     lookupKey fields kPros = none →
     analyze_code_with_ollama (CallOutcome.done 0 stdout ("")) =
       (none, ["Error parsing response: Missing field pros in response",
               "Raw response: " ++ pyRepr (JVal.jobj fields)])) := by
  refine ⟨?_, ?_, ?_⟩
  · intro h
    rcases analyze_shape call with ⟨a2, heq, resp, hib⟩ | ⟨msgs, heq, hne⟩
    · rw [heq] at h
      injection h with h2
      subst h2
      exact innerBody_ok_requiredOk resp a2 hib
    · rw [heq] at h
      simp at h
  · intro h
    rcases analyze_shape call with ⟨a2, heq, resp, hib⟩ | ⟨msgs, heq, hne⟩
    · rw [heq] at h
      simp at h
    · rw [heq]
      simpa using hne
  · intro h1 h2 h3 h4
    obtain ⟨dv, hdv⟩ := Option.ne_none_iff_exists'.mp h3
    have hresp : strJsonLoads stdout = Except.ok (JVal.jobj fields) := by
      simp [strJsonLoads, h1]
    have hsel : selectPayload (JVal.jobj fields) = Except.ok (JVal.jobj fields) := by
      simp [selectPayload, pyContains, h2]
    have hchk : checkRequiredAux (JVal.jobj fields) requiredFields =
        Except.error (PyErr.valueError ("Missing field " ++ kPros ++ " in response")) := by
      simp [requiredFields, checkRequiredAux, pyContains, hdv, h4]
    have hib : innerBody (JVal.jobj fields) =
        Except.error (PyErr.valueError ("Missing field " ++ kPros ++ " in response")) := by
      simp [innerBody, hsel, hchk]
    simp [analyze_code_with_ollama, analyze_try_body, hresp, hib, isInnerCaught,
          innerHandlerMsgs, errText, kPros]

theorem claim_c7_witness :
    requiredOk payloadA = true ∧
    analyze_code_with_ollama (CallOutcome.done 0 noProsStdout ("")) =
      (none, ["Error parsing response: Missing field pros in response",
              "Raw response: " ++ pyRepr (JVal.jobj [(kDescription, JVal.jstr ("d"))])]) :=
  ⟨(claim_c7_thm (CallOutcome.done 0 goodStdout ("")) noProsStdout
      [(kDescription, JVal.jstr ("d"))] payloadA).1 rfl,
   (claim_c7_thm (CallOutcome.done 0 goodStdout ("")) noProsStdout
      [(kDescription, JVal.jstr ("d"))] payloadA).2.2 rfl rfl
     (fun hcon => Option.noConfusion hcon) rfl⟩
